import Mathlib

/-!
Shallow embedding of the Kilat-Pet-Delivery `service-tracking` repository
(Go) for checking its natural-language specification.

Numeric conventions of the embedding:
* Go `float64` values (coordinates, speed, heading, distances) are modelled
  as exact rationals `ℚ`; the transcendental primitives used by the
  haversine formula (`math.Sin`, `math.Cos`, `math.Sqrt`, `math.Atan2`,
  `math.Pi`) are library calls external to the repository and are passed in
  abstractly as a `TrigOps` record.
* `uuid.UUID` is modelled as `Nat`; `time.Time` as `Int`. Both are opaque
  identifiers/instants to the code under study.
* Go methods that mutate their receiver are modelled as functions returning
  the updated value; a method that can fail returns the error alongside the
  post-state, mirroring the Go `(err, receiver-after-call)` observable.
-/

namespace KilatTracking

/-- Model of `uuid.UUID` (opaque identifier). -/
abbrev UUID := Nat

/-- Model of `time.Time` (opaque instant). -/
abbrev Time := Int

/-- The Go string type `internal/domain/tracking.TrackingStatus`. -/
abbrev TrackingStatus := String

/-- Source `tracking.TrackingActive`. -/
def TrackingActive : TrackingStatus := "active"

/-- Source `tracking.TrackingCompleted`. -/
def TrackingCompleted : TrackingStatus := "completed"

/-- Source `tracking.TrackingCancelled`. -/
def TrackingCancelled : TrackingStatus := "cancelled"

/-- Source `tracking.Waypoint` (internal/domain/tracking/trip_track.go). -/
structure Waypoint where
  id : UUID
  latitude : ℚ
  longitude : ℚ
  speed : ℚ
  heading : ℚ
  recordedAt : Time
  deriving DecidableEq

/-- Error message of the latitude range check in `NewWaypoint`
(the Go code interpolates the offending value; the payload is opaque here). -/
def latitudeRangeMsg : String := "latitude must be between -90 and 90"

/-- Error message of the longitude range check in `NewWaypoint`. -/
def longitudeRangeMsg : String := "longitude must be between -180 and 180"

/-- Source `tracking.NewWaypoint` (trip_track.go lines 31-52). The generated
`uuid.New()` is passed in as `freshId`. -/
def NewWaypoint (lat lng speed heading : ℚ) (recordedAt : Time) (freshId : UUID) :
    Except String Waypoint :=
  if lat < -90 ∨ lat > 90 then
    .error latitudeRangeMsg
  else if lng < -180 ∨ lng > 180 then
    .error longitudeRangeMsg
  else
    let speed' := if speed < 0 then 0 else speed
    let heading' := if heading < 0 ∨ heading > 360 then 0 else heading
    .ok { id := freshId, latitude := lat, longitude := lng,
          speed := speed', heading := heading', recordedAt := recordedAt }

/-- Source `tracking.TripTrack` aggregate root (trip_track.go lines 55-66). -/
structure TripTrack where
  id : UUID
  bookingID : UUID
  runnerID : UUID
  status : TrackingStatus
  totalDistanceKm : ℚ
  startedAt : Time
  completedAt : Option Time
  version : Int
  createdAt : Time
  updatedAt : Time
  deriving DecidableEq

/-- Source `tracking.NewTripTrack` (trip_track.go lines 69-83); `uuid.New()` and
`time.Now().UTC()` are passed in as `freshId` and `now`. -/
def NewTripTrack (bookingID runnerID : UUID) (freshId : UUID) (now : Time) : TripTrack :=
  { id := freshId
    bookingID := bookingID
    runnerID := runnerID
    status := TrackingActive
    totalDistanceKm := 0
    startedAt := now
    completedAt := none
    version := 1
    createdAt := now
    updatedAt := now }

/-- Source `lib-common/domain.NewInvalidStateError(current, target)` — the external
invalid-state error, carrying the current and the attempted target state. -/
inductive DomainError where
  | invalidState (current target : String)
  deriving DecidableEq

/-- Source `(*TripTrack).Complete` (trip_track.go lines 120-130): the returned pair
is (error, receiver after the call); the error path performs no mutation. -/
def Complete (t : TripTrack) (totalDistanceKm : ℚ) (now : Time) :
    Option DomainError × TripTrack :=
  if t.status ≠ TrackingActive then
    (some (.invalidState t.status TrackingCompleted), t)
  else
    (none,
     { t with status := TrackingCompleted
              totalDistanceKm := totalDistanceKm
              completedAt := some now
              updatedAt := now })

/-- Source `(*TripTrack).Cancel` (trip_track.go lines 133-141). -/
def Cancel (t : TripTrack) (now : Time) : Option DomainError × TripTrack :=
  if t.status ≠ TrackingActive then
    (some (.invalidState t.status TrackingCancelled), t)
  else
    (none, { t with status := TrackingCancelled, updatedAt := now })

/-- Source `(*TripTrack).IncrementVersion` (trip_track.go lines 144-147). No code
path in the repository ever invokes it. -/
def IncrementVersion (t : TripTrack) (now : Time) : TripTrack :=
  { t with version := t.version + 1, updatedAt := now }

/-- Source `(*TripTrack).IsActive` (trip_track.go lines 150-152). -/
def IsActive (t : TripTrack) : Bool :=
  t.status == TrackingActive

/-- Source `tracking.Reconstruct` (trip_track.go lines 157-178). -/
def Reconstruct (id bookingID runnerID : UUID) (status : TrackingStatus)
    (totalDistanceKm : ℚ) (startedAt : Time) (completedAt : Option Time)
    (version : Int) (createdAt updatedAt : Time) : TripTrack :=
  { id := id
    bookingID := bookingID
    runnerID := runnerID
    status := status
    totalDistanceKm := totalDistanceKm
    startedAt := startedAt
    completedAt := completedAt
    version := version
    createdAt := createdAt
    updatedAt := updatedAt }

/-! Geo & distance kernel (internal/application, `calculateTotalDistance`,
`haversineKm`) -/

/-- The transcendental primitives of Go's `math` package used by
`haversineKm` (`math.Sin`, `math.Cos`, `math.Sqrt`, `math.Atan2`, `math.Pi`),
passed in abstractly: they are external library calls, and no claim depends
on their values. -/
structure TrigOps where
  sin : ℚ → ℚ
  cos : ℚ → ℚ
  sqrt : ℚ → ℚ
  atan2 : ℚ → ℚ → ℚ
  pi : ℚ

/-- Source `haversineKm` (application service): great-circle distance with Earth
radius 6371 km, literal transcription of the Go formula. -/
def haversineKm (T : TrigOps) (lat1 lon1 lat2 lon2 : ℚ) : ℚ :=
  let earthRadiusKm : ℚ := 6371
  let dLat := (lat2 - lat1) * T.pi / 180
  let dLon := (lon2 - lon1) * T.pi / 180
  let lat1Rad := lat1 * T.pi / 180
  let lat2Rad := lat2 * T.pi / 180
  let a := T.sin (dLat / 2) * T.sin (dLat / 2) +
    T.cos lat1Rad * T.cos lat2Rad * T.sin (dLon / 2) * T.sin (dLon / 2)
  let c := 2 * T.atan2 (T.sqrt a) (T.sqrt (1 - a))
  earthRadiusKm * c

/-- Go's `math.Round`: round to the nearest integer, ties away from zero. -/
def mathRound (x : ℚ) : ℚ :=
  if x < 0 then -((((-x) + 1 / 2).floor : ℤ) : ℚ) else (((x + 1 / 2).floor : ℤ) : ℚ)

/-- The accumulation step of the `for i := 1; ...` loop in
`calculateTotalDistance`. -/
def segStep (T : TrigOps) (acc : ℚ) (p : Waypoint × Waypoint) : ℚ :=
  acc + haversineKm T p.1.latitude p.1.longitude p.2.latitude p.2.longitude

/-- Source `calculateTotalDistance` (application service): 0 for fewer than two
waypoints, otherwise the loop over consecutive pairs followed by
`math.Round(totalKm*1000)/1000`. -/
def calculateTotalDistance (T : TrigOps) (waypoints : List Waypoint) : ℚ :=
  if waypoints.length < 2 then 0
  else mathRound ((waypoints.zip waypoints.tail).foldl (segStep T) 0 * 1000) / 1000

/-- Spec-side definition (§4.1 of the spec): the sum of the haversine
distances between each pair of consecutive waypoints. -/
def consecutiveDistanceSum (T : TrigOps) : List Waypoint → ℚ
  | a :: b :: rest =>
      haversineKm T a.latitude a.longitude b.latitude b.longitude +
        consecutiveDistanceSum T (b :: rest)
  | _ => 0

/-! Persistence model (internal/repository/tracking_repository.go),
with the database modelled as an in-memory `Store` -/

/-- Source `repository.TripTrackModel` (GORM row for `trip_tracks`). -/
structure TripTrackModel where
  ID : UUID
  BookingID : UUID
  RunnerID : UUID
  Status : String
  TotalDistanceKm : ℚ
  StartedAt : Time
  CompletedAt : Option Time
  Version : Int
  CreatedAt : Time
  UpdatedAt : Time
  deriving DecidableEq

/-- Source `repository.toModel` (tracking_repository.go lines 240-253). -/
def toModel (track : TripTrack) : TripTrackModel :=
  { ID := track.id
    BookingID := track.bookingID
    RunnerID := track.runnerID
    Status := track.status
    TotalDistanceKm := track.totalDistanceKm
    StartedAt := track.startedAt
    CompletedAt := track.completedAt
    Version := track.version
    CreatedAt := track.createdAt
    UpdatedAt := track.updatedAt }

/-- Source `repository.toDomain` (tracking_repository.go lines 224-237). -/
def toDomain (model : TripTrackModel) : TripTrack :=
  Reconstruct model.ID model.BookingID model.RunnerID model.Status
    model.TotalDistanceKm model.StartedAt model.CompletedAt model.Version
    model.CreatedAt model.UpdatedAt

/-- Repository errors surfaced by the GORM repository:
`domain.ErrNotFound` and `domain.ErrOptimisticLock` (lib-common). -/
inductive RepoError where
  | notFound
  | optimisticLock
  deriving DecidableEq

/-- In-memory model of the database state: the `trip_tracks` rows and the
append-only `waypoints` rows (track id paired with the waypoint). -/
structure Store where
  tracks : List TripTrackModel
  waypoints : List (UUID × Waypoint)
  deriving DecidableEq

/-- Source `FindByBookingID` (tracking_repository.go lines 80-89): first row whose
`booking_id` matches, else `domain.ErrNotFound`. -/
def FindByBookingID (st : Store) (bookingID : UUID) : Except RepoError TripTrack :=
  match st.tracks.find? (fun m => m.BookingID == bookingID) with
  | some m => .ok (toDomain m)
  | none => .error .notFound

/-- Source `FindActiveByRunnerID` (tracking_repository.go lines 92-103): first row
with matching `runner_id` and status `active`, else `domain.ErrNotFound`. -/
def FindActiveByRunnerID (st : Store) (runnerID : UUID) : Except RepoError TripTrack :=
  match st.tracks.find? (fun m => m.RunnerID == runnerID && m.Status == TrackingActive) with
  | some m => .ok (toDomain m)
  | none => .error .notFound

/-- Source `Save` (tracking_repository.go lines 106-112): INSERT of a new row. -/
def Save (st : Store) (track : TripTrack) : Store :=
  { st with tracks := st.tracks ++ [toModel track] }

/-- Source `Update` (tracking_repository.go lines 115-128): UPDATE guarded by
`WHERE id = ? AND version = ?` with expected version `model.Version - 1`;
zero affected rows yield `domain.ErrOptimisticLock`. -/
def Update (st : Store) (track : TripTrack) : Except RepoError Store :=
  let model := toModel track
  if st.tracks.any (fun m => m.ID == model.ID && m.Version == model.Version - 1) then
    .ok { st with
            tracks := st.tracks.map
              (fun m => if m.ID == model.ID && m.Version == model.Version - 1 then model else m) }
  else
    .error .optimisticLock

/-- Source `AddWaypoint` (tracking_repository.go lines 131-146): INSERT of a
waypoint row for the track. -/
def AddWaypoint (st : Store) (trackID : UUID) (waypoint : Waypoint) : Store :=
  { st with waypoints := st.waypoints ++ [(trackID, waypoint)] }

/-- Insert a waypoint into a list sorted by `recordedAt` (models the
`ORDER BY recorded_at ASC` of the waypoint query). -/
def insertByRecordedAt (w : Waypoint) : List Waypoint → List Waypoint
  | [] => [w]
  | x :: xs => if w.recordedAt ≤ x.recordedAt then w :: x :: xs
               else x :: insertByRecordedAt w xs

/-- Sort waypoints by `recordedAt` (stable insertion sort). -/
def sortByRecordedAt : List Waypoint → List Waypoint
  | [] => []
  | x :: xs => insertByRecordedAt x (sortByRecordedAt xs)

/-- Source `GetWaypoints` (tracking_repository.go lines 149-170): all waypoint rows
of the track, ordered by `recorded_at` ascending. -/
def GetWaypoints (st : Store) (trackID : UUID) : List Waypoint :=
  sortByRecordedAt ((st.waypoints.filter (fun p => p.1 == trackID)).map (fun p => p.2))

/-! Route export (tracking_repository.go, `buildGeoJSONLineString` and
`GetRouteAsGeoJSON`) -/

/-- The literal returned by `buildGeoJSONLineString` for an empty waypoint
list: `\x7b"type":"LineString","coordinates":[]\x7d`. -/
def emptyLineString : String :=
  "\x7b\"type\":\"LineString\",\"coordinates\":[]\x7d"

/-- Separator used below (a comma). -/
def commaSep : String := ","

/-- Encode one coordinate pair as a JSON array, using the abstract float
encoder `enc` (Go's `encoding/json` number formatting is external). -/
def encodeCoordinate (enc : ℚ → String) (c : List ℚ) : String :=
  "[" ++ String.intercalate commaSep (c.map enc) ++ "]"

/-- Model of `json.Marshal` applied to the Go map `{"type": "LineString", "coordinates": c}`:
`encoding/json` serializes map keys in sorted order, so `coordinates`
precedes `type`. -/
def jsonMarshalLineString (enc : ℚ → String) (coordinates : List (List ℚ)) : String :=
  "\x7b\"coordinates\":[" ++
    String.intercalate commaSep (coordinates.map (encodeCoordinate enc)) ++
    "],\"type\":\"LineString\"\x7d"

/-- Source `buildGeoJSONLineString` (tracking_repository.go lines 201-221): the
empty case returns the literal; otherwise the `coordinates` array holds
`[longitude, latitude]` per waypoint, in input order, and is marshalled.
(Over exact rationals the marshal step cannot fail, so the error branch of
`json.Marshal` is unreachable in the model.) -/
def buildGeoJSONLineString (enc : ℚ → String) (waypoints : List Waypoint) :
    Except String String :=
  if waypoints.length = 0 then
    .ok emptyLineString
  else
    let coordinates := waypoints.map (fun wp => [wp.longitude, wp.latitude])
    .ok (jsonMarshalLineString enc coordinates)

/-- Source `GetRouteAsGeoJSON` (tracking_repository.go lines 174-198): the PostGIS
`ST_AsGeoJSON(ST_MakeLine(...))` attempt is external and passed in as `pg`
(its error or scanned string); a successful non-empty result is returned
as-is, otherwise the manual builder runs over the ordered waypoints. -/
def GetRouteAsGeoJSON (enc : ℚ → String) (pg : Except String String)
    (st : Store) (trackID : UUID) : Except String String :=
  match pg with
  | .ok s => if s ≠ "" then .ok s else buildGeoJSONLineString enc (GetWaypoints st trackID)
  | .error _ => buildGeoJSONLineString enc (GetWaypoints st trackID)

/-! WebSocket hub (internal/ws, `Hub` and `broadcastToRoom`) -/

/-- Opaque broadcast payload (`[]byte`). -/
abbrev Msg := String

/-- Source `ws.Client`: one WebSocket connection. `sendCapacity`/`sendQueue` model
the bounded `Send` channel (capacity 256 in the handler); `id` models the
Go pointer identity under which the hub's room map keys clients. -/
structure Client where
  id : UUID
  bookingID : UUID
  sendCapacity : Nat
  sendQueue : List Msg
  deriving DecidableEq

/-- Source `ws.Hub` room state: `rooms` maps a booking id to the set of clients
(association list standing for the Go map). -/
structure Hub where
  rooms : List (UUID × List Client)
  deriving DecidableEq

/-- Go map read `h.rooms[bookingID]`. -/
def lookupRoom : List (UUID × List Client) → UUID → Option (List Client)
  | [], _ => none
  | p :: rest, bid => if p.1 = bid then some p.2 else lookupRoom rest bid

/-- Go map write `delete(h.rooms, bookingID)`. -/
def eraseRoom : List (UUID × List Client) → UUID → List (UUID × List Client)
  | [], _ => []
  | p :: rest, bid =>
      if p.1 = bid then eraseRoom rest bid else p :: eraseRoom rest bid

/-- Go map write replacing the client set of one room. -/
def setRoom : List (UUID × List Client) → UUID → List Client →
    List (UUID × List Client)
  | [], _, _ => []
  | p :: rest, bid, clients =>
      if p.1 = bid then (p.1, clients) :: setRoom rest bid clients
      else p :: setRoom rest bid clients

/-- The per-client body of the `for client := range clients` loop in
`broadcastToRoom`: the non-blocking `select` enqueues `data` when the `Send`
channel has room, and otherwise removes the client (whose channel is then
closed). Returns (clients kept in the room, clients dropped and closed). -/
def deliverLoop (data : Msg) : List Client → List Client × List Client
  | [] => ([], [])
  | c :: rest =>
      let (kept, dropped) := deliverLoop data rest
      if c.sendQueue.length < c.sendCapacity then
        ({ c with sendQueue := c.sendQueue ++ [data] } :: kept, dropped)
      else
        (kept, c :: dropped)

/-- Source `broadcastToRoom` (internal/ws hub, lines 158-180): looks the room up,
runs the non-blocking delivery loop over its clients, and deletes the room
when it has become empty. The second component lists the clients that were
unregistered and whose `Send` channel was closed. -/
def broadcastToRoom (h : Hub) (bookingID : UUID) (data : Msg) : Hub × List Client :=
  match lookupRoom h.rooms bookingID with
  | none => (h, [])
  | some clients =>
      let (kept, dropped) := deliverLoop data clients
      if kept.isEmpty then
        ({ rooms := eraseRoom h.rooms bookingID }, dropped)
      else
        ({ rooms := setRoom h.rooms bookingID kept }, dropped)

/-- Spec-side definition (§4.3): the room after a delivery holds exactly the
members whose queue had space, each with the message appended. -/
def deliveredRoom (data : Msg) (clients : List Client) : List Client :=
  (clients.filter (fun c => c.sendQueue.length < c.sendCapacity)).map
    (fun c => { c with sendQueue := c.sendQueue ++ [data] })

/-- Spec-side definition (§4.3): the members dropped by a delivery are
exactly those whose queue was full. -/
def droppedClients (clients : List Client) : List Client :=
  clients.filter (fun c => ¬ c.sendQueue.length < c.sendCapacity)

/-! Event orchestrator (internal/application `TrackingService`) -/

/-- Source `lib-proto/events.BookingAcceptedEvent` (fields as used by the service). -/
structure BookingAcceptedEvent where
  BookingID : UUID
  RunnerID : UUID
  deriving DecidableEq

/-- Source `lib-proto/events.RunnerLocationUpdateEvent`. -/
structure RunnerLocationUpdateEvent where
  RunnerID : UUID
  Latitude : ℚ
  Longitude : ℚ
  Speed : ℚ
  Heading : ℚ
  Timestamp : Time
  deriving DecidableEq

/-- Source `lib-proto/events.DeliveryConfirmedEvent`. -/
structure DeliveryConfirmedEvent where
  BookingID : UUID
  deriving DecidableEq

/-- The outbound notification events published to the tracking topic. -/
inductive OutEvent where
  | trackingStarted (trackID bookingID runnerID : UUID) (startedAt occurredAt : Time)
  | trackingUpdated (trackID bookingID runnerID : UUID)
      (latitude longitude speed : ℚ) (occurredAt : Time)
  | trackingCompleted (trackID bookingID runnerID : UUID)
      (totalDistance : ℚ) (completedAt occurredAt : Time)
  deriving DecidableEq

/-- Source `ws.TrackingUpdate` as handed to `hub.Broadcast`. -/
structure TrackingUpdate where
  BookingID : UUID
  RunnerID : UUID
  Latitude : ℚ
  Longitude : ℚ
  Speed : ℚ
  Heading : ℚ
  Timestamp : Time
  deriving DecidableEq

/-- Errors returned by the service handlers (the Go code wraps repository
and domain errors in `fmt.Errorf`; the wrapper keeps the cause). -/
inductive SvcError where
  | trackingNotFound (bookingID : UUID) (cause : RepoError)
  | saveFailed
  | addWaypointFailed
  | completeFailed (cause : DomainError)
  | updateFailed (cause : RepoError)
  deriving DecidableEq

/-- Observable outcome of one handler invocation: the returned error (if
any), the database state after the call, the events published to Kafka,
and the updates pushed into the hub's broadcast channel. -/
structure HandlerResult where
  res : Option SvcError
  store : Store
  published : List OutEvent
  broadcasts : List TrackingUpdate
  deriving DecidableEq

/-- Source `TrackingService.HandleBookingAccepted` (application service lines
65-107): idempotent create keyed by booking id, then best-effort publish of
`TrackingStartedEvent`. `uuid.New()` and `time.Now().UTC()` are passed in
as `freshId` and `now`. -/
def HandleBookingAccepted (st : Store) (freshId : UUID) (now : Time)
    (event : BookingAcceptedEvent) : HandlerResult :=
  match FindByBookingID st event.BookingID with
  | .ok _ => { res := none, store := st, published := [], broadcasts := [] }
  | .error _ =>
      let track := NewTripTrack event.BookingID event.RunnerID freshId now
      { res := none
        store := Save st track
        published := [.trackingStarted track.id track.bookingID track.runnerID
          track.startedAt now]
        broadcasts := [] }

/-- Source `TrackingService.HandleRunnerLocationUpdate` (application service lines
110-169): no active track or invalid waypoint → silent no-op; otherwise
append the waypoint, broadcast via the hub, publish `TrackingUpdatedEvent`. -/
def HandleRunnerLocationUpdate (st : Store) (freshId : UUID) (now : Time)
    (event : RunnerLocationUpdateEvent) : HandlerResult :=
  match FindActiveByRunnerID st event.RunnerID with
  | .error _ => { res := none, store := st, published := [], broadcasts := [] }
  | .ok track =>
      match NewWaypoint event.Latitude event.Longitude event.Speed event.Heading
          event.Timestamp freshId with
      | .error _ => { res := none, store := st, published := [], broadcasts := [] }
      | .ok waypoint =>
          let update : TrackingUpdate :=
            { BookingID := track.bookingID
              RunnerID := track.runnerID
              Latitude := event.Latitude
              Longitude := event.Longitude
              Speed := event.Speed
              Heading := event.Heading
              Timestamp := event.Timestamp }
          { res := none
            store := AddWaypoint st track.id waypoint
            published := [.trackingUpdated track.id track.bookingID track.runnerID
              event.Latitude event.Longitude event.Speed now]
            broadcasts := [update] }

/-- Source `TrackingService.HandleDeliveryConfirmed` (application service lines
172-228): missing track is a hard error; a non-active track is an idempotent
no-op; an active track is completed with the distance over the full waypoint
history, persisted via `Update`, and `TrackingCompletedEvent` published. -/
def HandleDeliveryConfirmed (T : TrigOps) (st : Store) (now : Time)
    (event : DeliveryConfirmedEvent) : HandlerResult :=
  match FindByBookingID st event.BookingID with
  | .error e =>
      { res := some (.trackingNotFound event.BookingID e), store := st,
        published := [], broadcasts := [] }
  | .ok track =>
      if ¬ IsActive track then
        { res := none, store := st, published := [], broadcasts := [] }
      else
        let waypoints := GetWaypoints st track.id
        let totalDistance := calculateTotalDistance T waypoints
        match Complete track totalDistance now with
        | (some e, _) =>
            { res := some (.completeFailed e), store := st, published := [],
              broadcasts := [] }
        | (none, track') =>
            match Update st track' with
            | .error e =>
                { res := some (.updateFailed e), store := st, published := [],
                  broadcasts := [] }
            | .ok st' =>
                { res := none
                  store := st'
                  published := [.trackingCompleted track'.id track'.bookingID
                    track'.runnerID totalDistance (track'.completedAt.getD now) now]
                  broadcasts := [] }

/-! Concrete sample values used to instantiate the theorems -/

/-- Sample instantiation of the abstract `math` primitives. -/
def sampleTrig : TrigOps :=
  { sin := fun x => x
    cos := fun _ => 1
    sqrt := fun x => x
    atan2 := fun y x => y - x
    pi := 3 }

/-- Sample waypoint at (1,1). -/
def wpA : Waypoint :=
  { id := 1, latitude := 1, longitude := 1, speed := 0, heading := 0, recordedAt := 10 }

/-- Sample waypoint at (1,2). -/
def wpB : Waypoint :=
  { id := 2, latitude := 1, longitude := 2, speed := 0, heading := 0, recordedAt := 20 }

/-- The waypoint produced by `NewWaypoint` for an input heading of 360. -/
def wp360 : Waypoint :=
  { id := 7, latitude := 0, longitude := 0, speed := 0, heading := 360, recordedAt := 0 }

/-- A freshly created track (booking 100, runner 200, id 1, created at 50). -/
def sampleActiveTrack : TripTrack := NewTripTrack 100 200 1 50

/-- The same track in the terminal `completed` state. -/
def sampleCompletedTrack : TripTrack :=
  { sampleActiveTrack with status := TrackingCompleted }

/-- Empty database. -/
def stEmpty : Store := { tracks := [], waypoints := [] }

/-- Database holding the active sample track and no waypoints. -/
def stActive : Store := { tracks := [toModel sampleActiveTrack], waypoints := [] }

/-- Database holding the completed sample track. -/
def stDone : Store := { tracks := [toModel sampleCompletedTrack], waypoints := [] }

/-- Sample booking-accepted event for booking 100 / runner 200. -/
def accEvent : BookingAcceptedEvent := { BookingID := 100, RunnerID := 200 }

/-- Sample location update for a runner (999) that has no active track. -/
def locEvent : RunnerLocationUpdateEvent :=
  { RunnerID := 999, Latitude := 1, Longitude := 1, Speed := 0, Heading := 0,
    Timestamp := 10 }

/-- Sample delivery-confirmed event for booking 100. -/
def confEvent : DeliveryConfirmedEvent := { BookingID := 100 }

/-- Sample broadcast payload. -/
def msgData : Msg := "payload"

/-- A queued message filling the slow client's channel. -/
def msgOld : Msg := "old"

/-- A client whose `Send` channel (capacity 1) is already full. -/
def clientSlow : Client :=
  { id := 10, bookingID := 1, sendCapacity := 1, sendQueue := [msgOld] }

/-- A client with room in its `Send` channel. -/
def clientFast : Client :=
  { id := 11, bookingID := 1, sendCapacity := 2, sendQueue := [] }

/-- A hub with one room (booking 1) holding the two sample clients. -/
def sampleHub : Hub := { rooms := [(1, [clientSlow, clientFast])] }

/-- Sample float encoder for the GeoJSON marshal model. -/
def encZeroStr : String := "0"

/-- Sample float encoder mapping every rational to `encZeroStr`. -/
def enc0 : ℚ → String := fun _ => encZeroStr

/-- Error message of an unavailable PostGIS query. -/
def pgErrMsg : String := "postgis unavailable"

/-- A failed PostGIS line-construction attempt. -/
def pgUnavailable : Except String String := .error pgErrMsg

/-! Theorems -/

/-- Claim C10: converting a `TripTrack` to the persistence model and back is
the identity on every field, so a save followed by a load reconstructs the
aggregate exactly. -/
theorem toDomain_toModel_id (t : TripTrack) : toDomain (toModel t) = t := rfl

/-- Claim C1 (falsified by the code): on an active track, `Complete`
succeeds, sets status `completed`, stores the final distance and the
completion time — but it leaves the version counter unchanged instead of
incrementing it by one (no code path calls `IncrementVersion`). Evaluated
at the failing input `sampleActiveTrack` (an active track with version 1). -/
theorem Complete_active_no_version_bump :
    IsActive sampleActiveTrack = true ∧
    (Complete sampleActiveTrack 5 60).1 = none ∧
    (Complete sampleActiveTrack 5 60).2.status = TrackingCompleted ∧
    (Complete sampleActiveTrack 5 60).2.totalDistanceKm = 5 ∧
    (Complete sampleActiveTrack 5 60).2.completedAt = some 60 ∧
    (Complete sampleActiveTrack 5 60).2.version = sampleActiveTrack.version ∧
    ¬ (Complete sampleActiveTrack 5 60).2.version = sampleActiveTrack.version + 1 := by
  refine ⟨rfl, rfl, rfl, rfl, rfl, rfl, ?_⟩
  decide

/-- Claim C5: from any non-active state, `Complete` and `Cancel` both return
the invalid-state error carrying the current state and the attempted target
state, and the track is left unchanged in every field. -/
theorem nonactive_transitions_fail (t : TripTrack) (d : ℚ) (now : Time)
    (h : t.status ≠ TrackingActive) :
    Complete t d now = (some (.invalidState t.status TrackingCompleted), t) ∧
    Cancel t now = (some (.invalidState t.status TrackingCancelled), t) := by
  unfold Complete Cancel
  rw [if_pos h, if_pos h]
  exact ⟨rfl, rfl⟩

/-- Witness for C5 at the completed sample track. -/
theorem nonactive_transitions_fail_witness :
    Complete sampleCompletedTrack 5 60 =
      (some (.invalidState sampleCompletedTrack.status TrackingCompleted),
        sampleCompletedTrack) ∧
    Cancel sampleCompletedTrack 60 =
      (some (.invalidState sampleCompletedTrack.status TrackingCancelled),
        sampleCompletedTrack) :=
  nonactive_transitions_fail sampleCompletedTrack 5 60 (by decide)

/-- Counterexample to claim C3 as stated: the input heading 360 lies outside
the half-open range [0, 360), yet `NewWaypoint` keeps it instead of
replacing it by 0 (the code only rejects headings strictly above 360). -/
theorem NewWaypoint_heading360_kept :
    ¬ ((360 : ℚ) < 360) ∧
    NewWaypoint 0 0 0 360 0 7 = .ok wp360 ∧
    ¬ wp360.heading = 0 :=
  ⟨by decide, rfl, by decide⟩

/-- Claim C3 (amended): for every latitude/longitude pair outside the ranges
[-90,90] and [-180,180], `NewWaypoint` returns an error; for every pair
inside range it succeeds, and in the returned `Waypoint` a negative input
speed is replaced by 0 and an input heading outside the closed range [0,360]
(below 0 or strictly above 360) is replaced by 0 — a heading of exactly 360
is kept. -/
theorem NewWaypoint_validation (lat lng speed heading : ℚ) (recordedAt : Time)
    (freshId : UUID) :
    ((lat < -90 ∨ lat > 90 ∨ lng < -180 ∨ lng > 180) →
      ∃ msg, NewWaypoint lat lng speed heading recordedAt freshId = .error msg) ∧
    ((-90 ≤ lat ∧ lat ≤ 90 ∧ -180 ≤ lng ∧ lng ≤ 180) →
      NewWaypoint lat lng speed heading recordedAt freshId =
        .ok { id := freshId, latitude := lat, longitude := lng,
              speed := if speed < 0 then 0 else speed,
              heading := if heading < 0 ∨ heading > 360 then 0 else heading,
              recordedAt := recordedAt }) := by
  constructor
  · intro h
    by_cases hlat : lat < -90 ∨ lat > 90
    · exact ⟨latitudeRangeMsg, by rw [NewWaypoint, if_pos hlat]⟩
    · have hlng : lng < -180 ∨ lng > 180 := by tauto
      exact ⟨longitudeRangeMsg, by rw [NewWaypoint, if_neg hlat, if_pos hlng]⟩
  · rintro ⟨h1, h2, h3, h4⟩
    have hlat : ¬ (lat < -90 ∨ lat > 90) := by push_neg; exact ⟨by linarith, by linarith⟩
    have hlng : ¬ (lng < -180 ∨ lng > 180) := by push_neg; exact ⟨by linarith, by linarith⟩
    rw [NewWaypoint, if_neg hlat, if_neg hlng]

/-- Witness for C3 (amended): an out-of-range latitude is rejected; an
in-range point with negative speed and heading 361 is accepted with both
normalized. -/
theorem NewWaypoint_validation_witness :
    (∃ msg, NewWaypoint 91 0 0 0 0 7 = .error msg) ∧
    NewWaypoint 1 2 (-5) 361 3 7 =
      .ok { id := 7, latitude := 1, longitude := 2,
            speed := if (-5 : ℚ) < 0 then 0 else -5,
            heading := if (361 : ℚ) < 0 ∨ (361 : ℚ) > 360 then 0 else 361,
            recordedAt := 3 } :=
  ⟨(NewWaypoint_validation 91 0 0 0 0 7).1 (by decide),
   (NewWaypoint_validation 1 2 (-5) 361 3 7).2 (by decide)⟩

/-- Helper: the loop of `calculateTotalDistance` accumulates exactly the
consecutive-pair distance sum. -/
theorem foldSegments (T : TrigOps) :
    ∀ (l : List Waypoint) (a : Waypoint) (acc : ℚ),
      ((a :: l).zip l).foldl (segStep T) acc = acc + consecutiveDistanceSum T (a :: l) := by
  intro l
  induction l with
  | nil => intro a acc; simp [consecutiveDistanceSum]
  | cons b r ih =>
      intro a acc
      rw [List.zip_cons_cons, List.foldl_cons, ih b]
      simp only [consecutiveDistanceSum, segStep]
      ring

/-- Claim C4: `calculateTotalDistance` returns exactly 0 for every waypoint
sequence of length 0 or 1, and for every longer sequence returns the sum of
the haversine great-circle distances (Earth radius 6371 km, via
`haversineKm`) between consecutive waypoints, rounded to 3 decimal places
(`math.Round(x*1000)/1000`). -/
theorem calculateTotalDistance_spec (T : TrigOps) (wps : List Waypoint) :
    (wps.length ≤ 1 → calculateTotalDistance T wps = 0) ∧
    (2 ≤ wps.length →
      calculateTotalDistance T wps =
        mathRound (consecutiveDistanceSum T wps * 1000) / 1000) := by
  constructor
  · intro h
    unfold calculateTotalDistance
    rw [if_pos (by omega)]
  · intro h
    unfold calculateTotalDistance
    rw [if_neg (by omega)]
    cases wps with
    | nil => simp at h
    | cons a l =>
        simp only [List.tail_cons]
        rw [foldSegments T l a 0, zero_add]

/-- Witness for C4: a single waypoint yields 0; a two-point sequence yields
the rounded consecutive-pair sum. -/
theorem calculateTotalDistance_witness :
    calculateTotalDistance sampleTrig [wpA] = 0 ∧
    calculateTotalDistance sampleTrig [wpA, wpB] =
      mathRound (consecutiveDistanceSum sampleTrig [wpA, wpB] * 1000) / 1000 :=
  ⟨(calculateTotalDistance_spec sampleTrig [wpA]).1 (by decide),
   (calculateTotalDistance_spec sampleTrig [wpA, wpB]).2 (by decide)⟩

/-- Claim C6: `HandleBookingAccepted` is idempotent per booking — an
existing track for the booking id means success with no save and no
publish; otherwise exactly one new track (status `active`, distance 0,
version 1) is persisted and a tracking-started event is published. -/
theorem HandleBookingAccepted_spec (st : Store) (freshId : UUID) (now : Time)
    (ev : BookingAcceptedEvent) :
    ((∃ t, FindByBookingID st ev.BookingID = .ok t) →
      HandleBookingAccepted st freshId now ev =
        { res := none, store := st, published := [], broadcasts := [] }) ∧
    (FindByBookingID st ev.BookingID = .error .notFound →
      (HandleBookingAccepted st freshId now ev).res = none ∧
      (HandleBookingAccepted st freshId now ev).store.tracks =
        st.tracks ++ [toModel (NewTripTrack ev.BookingID ev.RunnerID freshId now)] ∧
      (HandleBookingAccepted st freshId now ev).store.waypoints = st.waypoints ∧
      (NewTripTrack ev.BookingID ev.RunnerID freshId now).status = TrackingActive ∧
      (NewTripTrack ev.BookingID ev.RunnerID freshId now).totalDistanceKm = 0 ∧
      (NewTripTrack ev.BookingID ev.RunnerID freshId now).version = 1 ∧
      (NewTripTrack ev.BookingID ev.RunnerID freshId now).bookingID = ev.BookingID ∧
      (HandleBookingAccepted st freshId now ev).published =
        [.trackingStarted freshId ev.BookingID ev.RunnerID now now] ∧
      (HandleBookingAccepted st freshId now ev).broadcasts = []) := by
  constructor
  · rintro ⟨t, ht⟩
    unfold HandleBookingAccepted
    rw [ht]
  · intro hf
    unfold HandleBookingAccepted
    rw [hf]
    exact ⟨rfl, rfl, rfl, rfl, rfl, rfl, rfl, rfl, rfl⟩

/-- Witness for C6: redelivery against a booking that already has a track is
a no-op; delivery against an empty store creates the one new track. -/
theorem HandleBookingAccepted_witness :
    HandleBookingAccepted stActive 9 70 accEvent =
      { res := none, store := stActive, published := [], broadcasts := [] } ∧
    (HandleBookingAccepted stEmpty 9 70 accEvent).store.tracks =
      stEmpty.tracks ++ [toModel (NewTripTrack accEvent.BookingID accEvent.RunnerID 9 70)] :=
  ⟨(HandleBookingAccepted_spec stActive 9 70 accEvent).1
      ⟨toDomain (toModel sampleActiveTrack), rfl⟩,
   ((HandleBookingAccepted_spec stEmpty 9 70 accEvent).2 rfl).2.1⟩

/-- Claim C7: a runner-location-update for a runner with no active track
returns success, appends no waypoint, broadcasts nothing to the hub, and
publishes no event. -/
theorem HandleRunnerLocationUpdate_noActive (st : Store) (freshId : UUID) (now : Time)
    (ev : RunnerLocationUpdateEvent)
    (h : ∀ m ∈ st.tracks, ¬ (m.RunnerID = ev.RunnerID ∧ m.Status = TrackingActive)) :
    HandleRunnerLocationUpdate st freshId now ev =
      { res := none, store := st, published := [], broadcasts := [] } := by
  have hfind : st.tracks.find?
      (fun m => m.RunnerID == ev.RunnerID && m.Status == TrackingActive) = none := by
    rw [List.find?_eq_none]
    intro m hm
    have hnot := h m hm
    simp only [Bool.and_eq_true, beq_iff_eq]
    tauto
  unfold HandleRunnerLocationUpdate FindActiveByRunnerID
  rw [hfind]

/-- Witness for C7 at a store with no track for runner 999. -/
theorem HandleRunnerLocationUpdate_noActive_witness :
    HandleRunnerLocationUpdate stActive 9 70 locEvent =
      { res := none, store := stActive, published := [], broadcasts := [] } :=
  HandleRunnerLocationUpdate_noActive stActive 9 70 locEvent (by decide)

/-- Claim C2 (falsified by the code on the active-track path): a missing
track is a hard error and a non-active track is a silent no-op as claimed,
but for an active track (`stActive`: stored version 1, no waypoints) the
persist step fails — `Complete` never bumps the version, so `Update`'s
guard `WHERE version = model.Version - 1` matches no row and yields the
optimistic-lock error; the handler returns that error and publishes
nothing, instead of persisting and publishing a tracking-completed event. -/
theorem HandleDeliveryConfirmed_outcomes :
    HandleDeliveryConfirmed sampleTrig stEmpty 70 confEvent =
      { res := some (.trackingNotFound 100 .notFound), store := stEmpty,
        published := [], broadcasts := [] } ∧
    HandleDeliveryConfirmed sampleTrig stDone 70 confEvent =
      { res := none, store := stDone, published := [], broadcasts := [] } ∧
    HandleDeliveryConfirmed sampleTrig stActive 70 confEvent =
      { res := some (.updateFailed .optimisticLock), store := stActive,
        published := [], broadcasts := [] } :=
  ⟨rfl, rfl, rfl⟩

/-- Helper: the delivery loop keeps exactly the members with queue space
(each with the message appended) and drops exactly the full ones. -/
theorem deliverLoop_eq (data : Msg) (clients : List Client) :
    deliverLoop data clients = (deliveredRoom data clients, droppedClients clients) := by
  induction clients with
  | nil => rfl
  | cons c rest ih =>
      by_cases hc : c.sendQueue.length < c.sendCapacity
      · simp [deliverLoop, ih, deliveredRoom, droppedClients, List.filter_cons, hc]
      · have hc' := Nat.not_lt.mp hc
        simp [deliverLoop, ih, deliveredRoom, droppedClients, List.filter_cons, hc, hc']

/-- Helper: looking a key up after the Go-map delete finds nothing. -/
theorem lookupRoom_eraseRoom (rooms : List (UUID × List Client)) (bid : UUID) :
    lookupRoom (eraseRoom rooms bid) bid = none := by
  induction rooms with
  | nil => rfl
  | cons p rest ih =>
      by_cases hp : p.1 = bid <;> simp [eraseRoom, lookupRoom, hp, ih]

/-- Helper: looking a key up after replacing its room contents finds the new
contents, provided the key was present. -/
theorem lookupRoom_setRoom (rooms : List (UUID × List Client)) (bid : UUID)
    (cs old : List Client) (h : lookupRoom rooms bid = some old) :
    lookupRoom (setRoom rooms bid cs) bid = some cs := by
  induction rooms with
  | nil => simp [lookupRoom] at h
  | cons p rest ih =>
      by_cases hp : p.1 = bid
      · simp [setRoom, lookupRoom, hp]
      · simp only [lookupRoom, if_neg hp] at h
        simp only [setRoom, if_neg hp, lookupRoom]
        exact ih h

/-- Claim C8: one broadcast delivery to a room enqueues the message onto
every member whose outbound queue has space, while every member whose queue
is full is removed and its queue closed (the non-blocking `select` is
modelled by the total per-member step, which never waits on a member), and
the room is deleted exactly when no member survives. -/
theorem broadcastToRoom_spec (h : Hub) (bid : UUID) (data : Msg)
    (clients : List Client) (hl : lookupRoom h.rooms bid = some clients) :
    (broadcastToRoom h bid data).2 = droppedClients clients ∧
    (deliveredRoom data clients = [] →
      lookupRoom (broadcastToRoom h bid data).1.rooms bid = none) ∧
    (deliveredRoom data clients ≠ [] →
      lookupRoom (broadcastToRoom h bid data).1.rooms bid =
        some (deliveredRoom data clients)) := by
  simp only [broadcastToRoom, hl, deliverLoop_eq]
  cases hE : deliveredRoom data clients with
  | nil =>
      simp only [List.isEmpty_nil, if_true]
      exact ⟨trivial, fun _ => lookupRoom_eraseRoom h.rooms bid, fun hne => absurd rfl hne⟩
  | cons x xs =>
      simp only [List.isEmpty_cons, Bool.false_eq_true, if_false]
      exact ⟨trivial, fun he => absurd he (by simp),
        fun _ => lookupRoom_setRoom h.rooms bid (x :: xs) clients hl⟩

/-- Witness for C8: in the sample room, the slow client (full queue) is
dropped and closed while the fast client still receives the message. -/
theorem broadcastToRoom_witness :
    (broadcastToRoom sampleHub 1 msgData).2 = droppedClients [clientSlow, clientFast] ∧
    lookupRoom (broadcastToRoom sampleHub 1 msgData).1.rooms 1 =
      some (deliveredRoom msgData [clientSlow, clientFast]) :=
  ⟨(broadcastToRoom_spec sampleHub 1 msgData [clientSlow, clientFast] rfl).1,
   (broadcastToRoom_spec sampleHub 1 msgData [clientSlow, clientFast] rfl).2.2
      (by decide)⟩

/-- Claim C9: route export never fails — an empty waypoint list yields
exactly the literal empty-coordinates LineString, a non-empty list yields
the marshalled document whose coordinates are one `[longitude, latitude]`
pair per waypoint in input (recorded-time) order, and when the spatial
query yields no usable result `GetRouteAsGeoJSON` falls back to that
builder over the ordered waypoints. -/
theorem routeExport_spec (enc : ℚ → String) (pg : Except String String)
    (st : Store) (trackID : UUID) (wps : List Waypoint) :
    (∃ s, buildGeoJSONLineString enc wps = .ok s) ∧
    (wps = [] → buildGeoJSONLineString enc wps = .ok emptyLineString) ∧
    (wps ≠ [] →
      buildGeoJSONLineString enc wps =
        .ok (jsonMarshalLineString enc
          (wps.map (fun wp => [wp.longitude, wp.latitude])))) ∧
    ((wps.map (fun wp => [wp.longitude, wp.latitude])).length = wps.length ∧
      ∀ i : Nat, (wps.map (fun wp => [wp.longitude, wp.latitude]))[i]? =
        Option.map (fun wp => [wp.longitude, wp.latitude]) wps[i]?) ∧
    ((∀ s, pg = .ok s → s = "") →
      GetRouteAsGeoJSON enc pg st trackID =
        buildGeoJSONLineString enc (GetWaypoints st trackID)) := by
  refine ⟨?_, ?_, ?_, ⟨List.length_map _ _, fun i => List.getElem?_map _ _ _⟩, ?_⟩
  · by_cases hw : wps.length = 0
    · exact ⟨emptyLineString, by rw [buildGeoJSONLineString, if_pos hw]⟩
    · exact ⟨jsonMarshalLineString enc (wps.map (fun wp => [wp.longitude, wp.latitude])),
        by rw [buildGeoJSONLineString, if_neg hw]⟩
  · intro hw
    rw [buildGeoJSONLineString, if_pos (by simp [hw])]
  · intro hw
    rw [buildGeoJSONLineString, if_neg (by simpa using hw)]
  · intro hpg
    cases hp : pg with
    | error e => rw [GetRouteAsGeoJSON]
    | ok s =>
        have hs : s = "" := hpg s hp
        rw [GetRouteAsGeoJSON, hs]
        simp

/-- Witness for C9: the empty route exports the exact literal; a one-point
route exports the marshalled single-pair document; a failed spatial query
falls back to the manual builder. -/
theorem routeExport_witness :
    buildGeoJSONLineString enc0 [] = .ok emptyLineString ∧
    buildGeoJSONLineString enc0 [wpA] =
      .ok (jsonMarshalLineString enc0
        ([wpA].map (fun wp => [wp.longitude, wp.latitude]))) ∧
    GetRouteAsGeoJSON enc0 pgUnavailable stEmpty 1 =
      buildGeoJSONLineString enc0 (GetWaypoints stEmpty 1) :=
  ⟨(routeExport_spec enc0 pgUnavailable stEmpty 1 []).2.1 rfl,
   (routeExport_spec enc0 pgUnavailable stEmpty 1 [wpA]).2.2.1 (by decide),
   (routeExport_spec enc0 pgUnavailable stEmpty 1 []).2.2.2.2
      (fun s hs => Except.noConfusion hs)⟩

end KilatTracking

